import Mathlib

/-!
Verification development for the `reporter` service: a shallow embedding in
Lean 4 of the event-ingestion consumer (`src/metrics/metrics.service.ts`,
`EventConsumerService`), the NATS subscription loop
(`NatsConsumerService.subscribe`), the materialized-view refresh scheduler
(`MaterializedViewsRefreshService`), the materialized-view SQL definitions
(`load-test.js` migration section) and the view-backed reporting query layer
(`ReportsService` over `MaterializedViewsRepository`).

Machine numbers are modelled over `ℚ`: JavaScript `number` values are
rationals that are exactly representable in IEEE-754 binary64, and every
JavaScript arithmetic step rounds its exact rational result back to binary64
with round-to-nearest, ties-to-even (including subnormals).  The rounding
functions below are implemented on explicit integer numerator/denominator
pairs so that they evaluate by kernel reduction (the `ℚ` field operations
are irreducible in this toolchain); they build their result with `mkRat`.
-/

namespace Reporter

/-! ### JavaScript numeric model -/

/-- Floor of the base-2 logarithm of a natural number, by fuel-bounded
halving.  `natLog2F fuel n = ⌊log₂ n⌋` whenever `n < 2 ^ (fuel + 1)`;
the fuel used below (2000) covers every magnitude a finite binary64
value (or a short sum of them) can take. -/
def natLog2F : Nat → Nat → Nat
  | 0, _ => 0
  | fuel + 1, n => if n ≤ 1 then 0 else natLog2F fuel (n / 2) + 1

/-- Whether `2 ^ e ≤ n / d`, for positive integers `n, d`, decided by
cross-multiplication so that no rational arithmetic is needed. -/
def pow2Le (e : ℤ) (n d : ℤ) : Bool :=
  if 0 ≤ e then d * (2 : ℤ) ^ e.toNat ≤ n else d ≤ n * (2 : ℤ) ^ (-e).toNat

/-- Floor of the base-2 logarithm of the positive fraction `n / d`: first
estimate from the bit lengths of numerator and denominator, then correct by
at most one step so that `2 ^ e ≤ n / d < 2 ^ (e + 1)`. -/
def ilog2Frac (n d : ℤ) : ℤ :=
  let e0 : ℤ := (natLog2F 2000 n.natAbs : ℤ) - (natLog2F 2000 d.natAbs : ℤ)
  if pow2Le (e0 + 1) n d then e0 + 1
  else if pow2Le e0 n d then e0
  else e0 - 1

/-- Round the exact fraction `n / d` (with `d > 0`) to the nearest IEEE-754
binary64 value, ties to even, returned as the rational that the binary64
value exactly denotes.  Normal numbers keep a 53-bit significand; the
significand grid is clamped at `2 ^ (-1074)` for subnormals.  Overflow to
infinity is not modelled (no value handled by this service approaches
`2 ^ 1024`). -/
def roundF64Frac (n d : ℤ) : ℚ :=
  if n = 0 then 0
  else
    let na : ℤ := |n|
    let e := ilog2Frac na d
    let g := max (e - 52) (-1074)
    -- the significand grid step is 2 ^ g; scale |n| / d by 2 ^ (-g)
    let scaledN := if 0 ≤ g then na else na * (2 : ℤ) ^ (-g).toNat
    let scaledD := if 0 ≤ g then d * (2 : ℤ) ^ g.toNat else d
    let f := scaledN / scaledD
    let r2 := 2 * (scaledN % scaledD)
    let m := if r2 < scaledD then f
      else if scaledD < r2 then f + 1
      else if f % 2 = 0 then f else f + 1
    let sm := if n < 0 then -m else m
    if 0 ≤ g then mkRat (sm * (2 : ℤ) ^ g.toNat) 1
    else mkRat sm ((2 : ℕ) ^ (-g).toNat)

/-- Round an exact rational to the nearest binary64 value. -/
def roundToF64 (q : ℚ) : ℚ := roundF64Frac q.num (q.den : ℤ)

/-- JavaScript binary64 addition: the exact rational sum of the two
operands, rounded once to binary64. -/
def jsAdd (a b : ℚ) : ℚ :=
  roundF64Frac (a.num * (b.den : ℤ) + b.num * (a.den : ℤ))
    ((a.den : ℤ) * (b.den : ℤ))

/-- JavaScript `Number(x)` applied to an exact decimal value (a
`Prisma.Decimal` / SQL `numeric` column): the nearest binary64. -/
def jsNumber (q : ℚ) : ℚ := roundToF64 q

/-- Numeric value of a list of decimal digit characters. -/
def digitsVal (ds : List Char) : ℕ :=
  ds.foldl (fun a c => a * 10 + (c.toNat - 48)) 0

/-- JavaScript `parseFloat` on plain decimal literals: skip leading
whitespace, optional sign, longest prefix of digits, optional fraction.
`none` models `NaN` (no parseable numeric prefix).  Exponent notation and
`Infinity` are not modelled; no payload of this repository uses them.
The parsed value is kept exact (every amount this service stores has at
most two fractional digits, which round-trips through binary64 and the
`DECIMAL(10,2)` column unchanged). -/
def jsParseFloat (s : String) : Option ℚ :=
  let cs := s.toList.dropWhile Char.isWhitespace
  let signAndRest : ℤ × List Char :=
    match cs with
    | '-' :: t => (-1, t)
    | '+' :: t => (1, t)
    | _ => (1, cs)
  let ints := signAndRest.2.takeWhile Char.isDigit
  let rest := signAndRest.2.dropWhile Char.isDigit
  let fracs : List Char :=
    match rest with
    | '.' :: t => t.takeWhile Char.isDigit
    | _ => []
  if ints.isEmpty && fracs.isEmpty then none
  else
    some (mkRat
      (signAndRest.1 *
        ((digitsVal ints : ℤ) * (10 : ℤ) ^ fracs.length + (digitsVal fracs : ℤ)))
      ((10 : ℕ) ^ fracs.length))

/-- Truthiness of a JavaScript string-or-null value (`if (purchaseAmount)`
in `metrics.service.ts`): `null`/absent and the empty string are falsy,
every other string — including `"0"` — is truthy. -/
def jsTruthyStr : Option String → Bool
  | none => false
  | some s => !(s == "")

/-! ### Event payloads

The payload type declarations (`./types` of the metrics module) are not part
of this repository snapshot; the shapes below are reconstructed from their
use in `EventConsumerService.processFacebookEvent` /
`processTiktokEvent` and from the spec's data model (§3).  Timestamps are
epoch milliseconds. -/

structure FacebookUser where
  userId : String
  name : String
  age : ℤ
  gender : String
  country : String
  city : String
deriving DecidableEq

/-- Facebook engagement union: the `checkout` alternative is the one that
has a `purchaseAmount` field (`'purchaseAmount' in event.data.engagement`);
`purchaseAmount` is a string or null, modelled as `Option String` with
`none` for null.  The `view` alternative carries no field this service
reads. -/
inductive FacebookEngagement where
  | view : FacebookEngagement
  | checkout (purchaseAmount : Option String) (campaignId : String)
      (adId : String) : FacebookEngagement
deriving DecidableEq

structure FacebookEvent where
  eventId : String
  timestamp : ℤ
  funnelStage : String
  eventType : String
  user : FacebookUser
  engagement : FacebookEngagement
deriving DecidableEq

structure TiktokUser where
  username : String
  followers : ℤ
deriving DecidableEq

/-- TikTok engagement union: the `video` alternative is the one that has
`watchTime` / `percentageWatched` fields; the `purchase` alternative is the
one that has `purchaseAmount` / `purchasedItem`. -/
inductive TiktokEngagement where
  | video (watchTime : ℤ) (percentageWatched : ℚ) : TiktokEngagement
  | purchase (purchaseAmount : Option String) (purchasedItem : String) :
      TiktokEngagement
deriving DecidableEq

structure TiktokEvent where
  eventId : String
  timestamp : ℤ
  funnelStage : String
  eventType : String
  user : TiktokUser
  engagement : TiktokEngagement
deriving DecidableEq

/-- A successfully JSON-decoded message payload, classified by its `source`
discriminator string as `handleProcessedEvent` does: `"facebook"`,
`"tiktok"`, or anything else (the `other` constructor carries the
unrecognized discriminator). -/
inductive DecodedPayload where
  | facebook (e : FacebookEvent) : DecodedPayload
  | tiktok (e : TiktokEvent) : DecodedPayload
  | other (source : String) : DecodedPayload
deriving DecidableEq

/-! ### Event Store

The three denormalized tables (Prisma schema, mirrored by the SQL migration
embedded in `load-test.js`).  Nullable columns are `Option`; each table has
a unique index on `eventId`.  A table is a list of rows in insertion
order. -/

structure EventStatisticRow where
  eventId : String
  timestamp : ℤ
  source : String
  funnelStage : String
  eventType : String
  userId : Option String
  userName : Option String
  userAge : Option ℤ
  userGender : Option String
  country : Option String
  city : Option String
  username : Option String
  followers : Option ℤ
  watchTime : Option ℤ
  percentageWatched : Option ℚ
deriving DecidableEq

structure DemographicRecordRow where
  eventId : String
  timestamp : ℤ
  source : String
  userId : Option String
  userName : Option String
  age : Option ℤ
  gender : Option String
  country : Option String
  city : Option String
  username : Option String
  followers : Option ℤ
deriving DecidableEq

/-- Revenue row.  `purchaseAmount` holds the result of
`parseFloat(purchaseAmount)`; `none` models `NaN` (stored when the string
does not parse). -/
structure RevenueRecordRow where
  eventId : String
  timestamp : ℤ
  source : String
  eventType : String
  purchaseAmount : Option ℚ
  campaignId : Option String
  adId : Option String
  userId : Option String
  username : Option String
  purchasedItem : Option String
deriving DecidableEq

structure Store where
  eventStatistics : List EventStatisticRow
  demographicRecords : List DemographicRecordRow
  revenueRecords : List RevenueRecordRow
deriving DecidableEq

def emptyStore : Store := ⟨[], [], []⟩

/-- Prisma `upsert` with `update: {}` keyed by a unique `eventId` column:
insert the row if no row with that `eventId` exists, otherwise leave the
table unchanged (the idempotent no-op update). -/
def upsertRow (eid : α → String) (row : α) (l : List α) : List α :=
  if l.any (fun x => eid x == eid row) then l else l ++ [row]

/-! ### Ingestion consumer (`EventConsumerService`)

Each `process…Event` method performs up to three sequential awaited
upserts; any of them can throw (storage unavailable).  Failure injection is
modelled by a `fails : WriteTarget → Bool` oracle: `fails t = true` means
the upsert against table `t` throws.  The returned `Bool` is `true` iff the
method ran to completion without throwing; the store component reflects the
writes that completed before a throw (there is no transaction spanning the
three writes). -/

inductive WriteTarget where
  | statistic
  | demographic
  | revenue
deriving DecidableEq

/-- The no-failure oracle: storage accepts every write. -/
def noFailure : WriteTarget → Bool := fun _ => false

/-- The `EventStatistic` row created for a Facebook event
(`metrics.service.ts`, `processFacebookEvent`, first upsert). -/
def fbStatisticRow (e : FacebookEvent) : EventStatisticRow :=
  { eventId := e.eventId
    timestamp := e.timestamp
    source := "facebook"
    funnelStage := e.funnelStage
    eventType := e.eventType
    userId := some e.user.userId
    userName := some e.user.name
    userAge := some e.user.age
    userGender := some e.user.gender
    country := some e.user.country
    city := some e.user.city
    username := none
    followers := none
    watchTime := none
    percentageWatched := none }

/-- The `DemographicRecord` row created for a Facebook event. -/
def fbDemographicRow (e : FacebookEvent) : DemographicRecordRow :=
  { eventId := e.eventId
    timestamp := e.timestamp
    source := "facebook"
    userId := some e.user.userId
    userName := some e.user.name
    age := some e.user.age
    gender := some e.user.gender
    country := some e.user.country
    city := some e.user.city
    username := none
    followers := none }

/-- The `RevenueRecord` row created for a Facebook checkout event, given
the engagement fields visible in the revenue branch. -/
def fbRevenueRow (e : FacebookEvent) (amount : String) (campaignId : String)
    (adId : String) : RevenueRecordRow :=
  { eventId := e.eventId
    timestamp := e.timestamp
    source := "facebook"
    eventType := e.eventType
    purchaseAmount := jsParseFloat amount
    campaignId := some campaignId
    adId := some adId
    userId := some e.user.userId
    username := none
    purchasedItem := none }

/-- Embedding of `EventConsumerService.processFacebookEvent`: upsert the statistic row,
then the demographic row, then — only when `eventType === 'checkout.complete'`,
the engagement has a `purchaseAmount` field and that value is truthy — the
revenue row. -/
def processFacebookEvent (fails : WriteTarget → Bool) (e : FacebookEvent)
    (s : Store) : Store × Bool :=
  if fails WriteTarget.statistic then (s, false)
  else
    let s1 : Store := { s with
      eventStatistics :=
        upsertRow EventStatisticRow.eventId (fbStatisticRow e) s.eventStatistics }
    if fails WriteTarget.demographic then (s1, false)
    else
      let s2 : Store := { s1 with
        demographicRecords :=
          upsertRow DemographicRecordRow.eventId (fbDemographicRow e)
            s1.demographicRecords }
      if e.eventType == "checkout.complete" then
        match e.engagement with
        | FacebookEngagement.view => (s2, true)
        | FacebookEngagement.checkout pa campaignId adId =>
          match pa with
          | none => (s2, true)
          | some amount =>
            if amount == "" then (s2, true)
            else if fails WriteTarget.revenue then (s2, false)
            else
              ({ s2 with
                revenueRecords :=
                  upsertRow RevenueRecordRow.eventId
                    (fbRevenueRow e amount campaignId adId)
                    s2.revenueRecords }, true)
      else (s2, true)

/-- The `EventStatistic` row created for a TikTok event
(`processTiktokEvent`, first upsert); `watchTime` / `percentageWatched` are
taken from the engagement when present, else null. -/
def ttkStatisticRow (e : TiktokEvent) : EventStatisticRow :=
  { eventId := e.eventId
    timestamp := e.timestamp
    source := "tiktok"
    funnelStage := e.funnelStage
    eventType := e.eventType
    userId := none
    userName := none
    userAge := none
    userGender := none
    country := none
    city := none
    username := some e.user.username
    followers := some e.user.followers
    watchTime :=
      match e.engagement with
      | TiktokEngagement.video w _ => some w
      | TiktokEngagement.purchase _ _ => none
    percentageWatched :=
      match e.engagement with
      | TiktokEngagement.video _ p => some p
      | TiktokEngagement.purchase _ _ => none }

/-- The `DemographicRecord` row created for a TikTok event. -/
def ttkDemographicRow (e : TiktokEvent) : DemographicRecordRow :=
  { eventId := e.eventId
    timestamp := e.timestamp
    source := "tiktok"
    userId := none
    userName := none
    age := none
    gender := none
    country := none
    city := none
    username := some e.user.username
    followers := some e.user.followers }

/-- The `RevenueRecord` row created for a TikTok purchase event. -/
def ttkRevenueRow (e : TiktokEvent) (amount : String)
    (purchasedItem : String) : RevenueRecordRow :=
  { eventId := e.eventId
    timestamp := e.timestamp
    source := "tiktok"
    eventType := e.eventType
    purchaseAmount := jsParseFloat amount
    campaignId := none
    adId := none
    userId := none
    username := some e.user.username
    purchasedItem := some purchasedItem }

/-- Embedding of `EventConsumerService.processTiktokEvent`: statistic row, demographic
row, then the revenue row only when `eventType === 'purchase'`, the
engagement has a `purchaseAmount` field and that value is truthy. -/
def processTiktokEvent (fails : WriteTarget → Bool) (e : TiktokEvent)
    (s : Store) : Store × Bool :=
  if fails WriteTarget.statistic then (s, false)
  else
    let s1 : Store := { s with
      eventStatistics :=
        upsertRow EventStatisticRow.eventId (ttkStatisticRow e) s.eventStatistics }
    if fails WriteTarget.demographic then (s1, false)
    else
      let s2 : Store := { s1 with
        demographicRecords :=
          upsertRow DemographicRecordRow.eventId (ttkDemographicRow e)
            s1.demographicRecords }
      if e.eventType == "purchase" then
        match e.engagement with
        | TiktokEngagement.video _ _ => (s2, true)
        | TiktokEngagement.purchase pa purchasedItem =>
          match pa with
          | none => (s2, true)
          | some amount =>
            if amount == "" then (s2, true)
            else if fails WriteTarget.revenue then (s2, false)
            else
              ({ s2 with
                revenueRecords :=
                  upsertRow RevenueRecordRow.eventId
                    (ttkRevenueRow e amount purchasedItem)
                    s2.revenueRecords }, true)
      else (s2, true)

/-- Embedding of `EventConsumerService.handleProcessedEvent` on a decoded payload: the
returned `Bool` is `true` iff `msg.ack()` is called — on an unknown source
discriminator the message is acknowledged immediately with no writes; for a
known source the message is acknowledged exactly when the per-source
handler completed without throwing (the `catch` branch does not
acknowledge). -/
def handleProcessedEvent (fails : WriteTarget → Bool) (p : DecodedPayload)
    (s : Store) : Store × Bool :=
  match p with
  | DecodedPayload.facebook e => processFacebookEvent fails e s
  | DecodedPayload.tiktok e => processTiktokEvent fails e s
  | DecodedPayload.other _ => (s, true)

/-- One iteration of the `NatsConsumerService.subscribe` consume loop on a
received message: `none` models a payload `jsonCodec.decode` throws on —
the error is caught and logged in the loop, the handler never runs and the
message is not acknowledged; a decoded payload is passed to
`handleProcessedEvent`. -/
def consumeMessage (fails : WriteTarget → Bool)
    (m : Option DecodedPayload) (s : Store) : Store × Bool :=
  match m with
  | none => (s, false)
  | some p => handleProcessedEvent fails p s

/-- The consume loop over a finite message sequence: every message is
handled in order (per-message errors are caught, so the loop never stops
early); returns the final store and the per-message acknowledgment
decisions. -/
def consumeLoop (fails : WriteTarget → Bool) :
    List (Option DecodedPayload) → Store → Store × List Bool
  | [], s => (s, [])
  | m :: rest, s =>
    let r := consumeMessage fails m s
    let rr := consumeLoop fails rest r.1
    (rr.1, r.2 :: rr.2)

/-- Consumer configuration from `NatsConsumerService.subscribe`: the
ack-wait timeout in nanoseconds. -/
def natsAckWaitNanos : ℕ := 30000000000

/-- Consumer configuration from `NatsConsumerService.subscribe`: the
maximum delivery-attempt count. -/
def natsMaxDeliver : ℕ := 5

/-! ### View refresh scheduler (`MaterializedViewsRefreshService`)

`refreshAllViews` awaits the four per-view refreshes in a fixed order
inside a single `try`; each per-view method rethrows its error, so the
first failing view aborts the sequence and `refreshAllViews` rethrows in
turn (`manualRefreshAll` simply returns `refreshAllViews()`).  Failure
injection: `fails v = true` means the `REFRESH MATERIALIZED VIEW` statement
for `v` throws.  The result is the list of views whose refresh was
attempted in this cycle, in order, and `true` iff the whole cycle completed
without throwing. -/

inductive MatView where
  | eventsHourly
  | revenueHourly
  | demographicsFbDaily
  | demographicsTiktokDaily
deriving DecidableEq

/-- The fixed refresh order of `refreshAllViews`. -/
def refreshOrder : List MatView :=
  [MatView.eventsHourly, MatView.revenueHourly,
   MatView.demographicsFbDaily, MatView.demographicsTiktokDaily]

/-- Sequentially attempt the refresh of each view in the list, stopping at
(and rethrowing after) the first failure. -/
def runRefreshSeq (fails : MatView → Bool) :
    List MatView → List MatView × Bool
  | [] => ([], true)
  | v :: rest =>
    if fails v then ([v], false)
    else
      let r := runRefreshSeq fails rest
      (v :: r.1, r.2)

/-- Embedding of `MaterializedViewsRefreshService.refreshAllViews` (also the body of the
every-minute cron tick). -/
def refreshAllViews (fails : MatView → Bool) : List MatView × Bool :=
  runRefreshSeq fails refreshOrder

/-- Embedding of `MaterializedViewsRefreshService.manualRefreshAll`: the on-demand
trigger runs the same cycle. -/
def manualRefreshAll (fails : MatView → Bool) : List MatView × Bool :=
  refreshAllViews fails

/-! ### Materialized view rows and the follower-segment bucketing

From the SQL view definitions embedded in `load-test.js`. -/

/-- The `CASE` expression of `report_demographics_tiktok_daily` that
buckets a follower count into a segment label. -/
def follower_segment (followers : ℤ) : String :=
  if followers < 1000 then "0-1k"
  else if followers < 10000 then "1k-10k"
  else if followers < 100000 then "10k-100k"
  else "100k+"

/-- A row of `report_events_hourly`: hour bucket (epoch hours), source,
funnel stage, event type, and `COUNT(*)`. -/
structure EventsHourlyRow where
  hour : ℤ
  source : String
  funnelStage : String
  eventType : String
  event_count : ℤ
deriving DecidableEq

/-- A row of `report_revenue_hourly`: `total_revenue` is the exact value of
the SQL `numeric` sum, `transaction_count` the `COUNT(*)`. -/
structure RevenueHourlyRow where
  hour : ℤ
  source : String
  campaign_id : Option String
  total_revenue : ℚ
  transaction_count : ℤ
deriving DecidableEq

/-! ### Reporting query layer

`MaterializedViewsRepository.findEventsHourly` plus
`ReportsService.getEventStatistics` / `getRevenueStatistics` (the
view-backed `ReportsService`). -/

/-- Optional filters of `findEventsHourly` (the service maps the request
query onto them; omitted filters impose no condition). -/
structure EventsHourlyFilters where
  fromHour : Option ℤ
  toHour : Option ℤ
  source : Option String
  funnelStage : Option String
  eventType : Option String
deriving DecidableEq

/-- The empty filter set (a request with no query parameters). -/
def noEventsFilters : EventsHourlyFilters := ⟨none, none, none, none, none⟩

/-- The `WHERE` clause assembled by `findEventsHourly`: conjunction of the
present filters (`hour >= from`, `hour <= to`, equality on the rest). -/
def matchesEventsFilters (f : EventsHourlyFilters) (r : EventsHourlyRow) :
    Bool :=
  (match f.fromHour with | none => true | some h => h ≤ r.hour) &&
  (match f.toHour with | none => true | some h => r.hour ≤ h) &&
  (match f.source with | none => true | some s => r.source == s) &&
  (match f.funnelStage with | none => true | some s => r.funnelStage == s) &&
  (match f.eventType with | none => true | some s => r.eventType == s)

/-- The `ORDER BY hour DESC` relation. -/
def hourGe (a b : EventsHourlyRow) : Prop := b.hour ≤ a.hour

instance : DecidableRel hourGe := fun a b => Int.decLe b.hour a.hour

instance : IsTotal EventsHourlyRow hourGe := ⟨fun a b => le_total b.hour a.hour⟩

instance : IsTrans EventsHourlyRow hourGe :=
  ⟨fun _ _ _ hab hbc => le_trans hbc hab⟩

/-- The default page size (`limit = 100`) of every repository query. -/
def defaultQueryLimit : ℕ := 100

/-- Embedding of `MaterializedViewsRepository.findEventsHourly`: filter the view table,
order by hour descending, return at most `limit` rows. -/
def findEventsHourly (table : List EventsHourlyRow)
    (f : EventsHourlyFilters) (limit : ℕ) : List EventsHourlyRow :=
  (List.insertionSort hourGe (table.filter (matchesEventsFilters f))).take limit

/-- Embedding of `events.reduce((sum, e) => sum + Number(e.event_count || 0), 0)`:
`event_count` is a non-null `bigint` `COUNT(*)`, converted exactly. -/
def eventsTotalCount (rows : List EventsHourlyRow) : ℤ :=
  rows.foldl (fun sum e => sum + e.event_count) 0

/-- The grouping key `source + funnelStage + eventType` joined with pipes
(`getEventStatistics`). -/
def eventsAggKey (e : EventsHourlyRow) : String :=
  e.source ++ "|" ++ e.funnelStage ++ "|" ++ e.eventType

/-- JavaScript `Map.set(key, current + count)` over an association list in
insertion order: add to the entry for `k` if present, else append it. -/
def insertAddCount : List (String × ℤ) → String → ℤ → List (String × ℤ)
  | [], k, v => [(k, v)]
  | (k0, v0) :: rest, k, v =>
    if k0 == k then (k0, v0 + v) :: rest
    else (k0, v0) :: insertAddCount rest k v

/-- The aggregation map of `getEventStatistics`, built row by row. -/
def eventsAggMap (rows : List EventsHourlyRow) : List (String × ℤ) :=
  rows.foldl (fun m e => insertAddCount m (eventsAggKey e) e.event_count) []

/-- One entry of the `aggregated` response array: the key is split back on
`|` into its three components. -/
structure EventsAggregatedEntry where
  source : String
  funnelStage : String
  eventType : String
  count : ℤ
deriving DecidableEq

/-- One entry of the `hourlyData` response array. -/
structure EventsHourlyEntry where
  hour : ℤ
  source : String
  funnelStage : String
  eventType : String
  count : ℤ
deriving DecidableEq

/-- The `GET /reports/events` response body. -/
structure EventsResponse where
  total : ℤ
  aggregated : List EventsAggregatedEntry
  hourlyData : List EventsHourlyEntry
deriving DecidableEq

/-- The `aggregated` array of `getEventStatistics`. -/
def eventsAggregated (rows : List EventsHourlyRow) :
    List EventsAggregatedEntry :=
  (eventsAggMap rows).map (fun kv =>
    let parts := kv.1.splitOn "|"
    { source := parts.getD 0 ""
      funnelStage := parts.getD 1 ""
      eventType := parts.getD 2 ""
      count := kv.2 })

/-- The `hourlyData` array of `getEventStatistics`. -/
def eventsHourlyData (rows : List EventsHourlyRow) :
    List EventsHourlyEntry :=
  rows.map (fun e =>
    { hour := e.hour
      source := e.source
      funnelStage := e.funnelStage
      eventType := e.eventType
      count := e.event_count })

/-- Embedding of `ReportsService.getEventStatistics` over the current contents of the
`report_events_hourly` view: fetch one page from the repository, then
compute `total`, `aggregated` and `hourlyData` from that page. -/
def getEventStatistics (table : List EventsHourlyRow)
    (f : EventsHourlyFilters) : EventsResponse :=
  let events := findEventsHourly table f defaultQueryLimit
  { total := eventsTotalCount events
    aggregated := eventsAggregated events
    hourlyData := eventsHourlyData events }

/-- Embedding of `records.reduce((sum, r) => sum + Number(r.total_revenue || 0), 0)` of
`getRevenueStatistics`: each exact `numeric` value is converted to binary64
by `Number`, and the accumulation itself is binary64 addition. -/
def revenueTotalRevenue (records : List RevenueHourlyRow) : ℚ :=
  records.foldl (fun sum r => jsAdd sum (jsNumber r.total_revenue)) 0

/-- The exact transaction-count total of `getRevenueStatistics`. -/
def revenueTotalTransactions (records : List RevenueHourlyRow) : ℤ :=
  records.foldl (fun sum r => sum + r.transaction_count) 0

/-- JavaScript `sourceMap.set(source, {revenue: current.revenue + Number(...),
transactions: current.transactions + Number(...)})` over an association
list in insertion order; the revenue accumulation is binary64 addition. -/
def insertAddRevenue : List (String × (ℚ × ℤ)) → String → ℚ → ℤ →
    List (String × (ℚ × ℤ))
  | [], k, rev, tx => [(k, (jsAdd 0 rev, tx))]
  | (k0, v0) :: rest, k, rev, tx =>
    if k0 == k then (k0, (jsAdd v0.1 rev, v0.2 + tx)) :: rest
    else (k0, v0) :: insertAddRevenue rest k rev tx

/-- The per-source breakdown map (`aggregatedBySource`) of
`getRevenueStatistics`: for each row, add `Number(r.total_revenue)` and the
transaction count to its source's entry. -/
def revenueBySource (records : List RevenueHourlyRow) :
    List (String × (ℚ × ℤ)) :=
  records.foldl
    (fun m r => insertAddRevenue m r.source (jsNumber r.total_revenue)
      r.transaction_count) []

/-- The exact decimal sum of the revenue values of a row set — the
arithmetic the spec prescribes for revenue totals (`Modelled from the
spec: "all numeric sums use exact decimal arithmetic"`); compared against
`revenueTotalRevenue`, which embeds what the code computes. -/
def specExactRevenueSum (records : List RevenueHourlyRow) : ℚ :=
  records.foldl (fun sum r => sum + r.total_revenue) 0

/-! ### Derived predicates and concrete data used by the theorems -/

/-- The exact condition under which `processFacebookEvent` performs the
revenue upsert: qualifying event type, a `purchaseAmount` field present,
and a truthy amount string. -/
def fbRevenueQualifies (e : FacebookEvent) : Bool :=
  e.eventType == "checkout.complete" &&
  (match e.engagement with
   | FacebookEngagement.view => false
   | FacebookEngagement.checkout pa _ _ => jsTruthyStr pa)

/-- The exact condition under which `processTiktokEvent` performs the
revenue upsert. -/
def ttkRevenueQualifies (e : TiktokEvent) : Bool :=
  e.eventType == "purchase" &&
  (match e.engagement with
   | TiktokEngagement.video _ _ => false
   | TiktokEngagement.purchase pa _ => jsTruthyStr pa)

/-- Whether, under failure oracle `fails`, processing this Facebook event
hits a write failure (some upsert it attempts throws). -/
def fbWriteFails (fails : WriteTarget → Bool) (e : FacebookEvent) : Bool :=
  fails WriteTarget.statistic || fails WriteTarget.demographic ||
  (fbRevenueQualifies e && fails WriteTarget.revenue)

/-- Whether, under failure oracle `fails`, processing this TikTok event
hits a write failure. -/
def ttkWriteFails (fails : WriteTarget → Bool) (e : TiktokEvent) : Bool :=
  fails WriteTarget.statistic || fails WriteTarget.demographic ||
  (ttkRevenueQualifies e && fails WriteTarget.revenue)

/-- Number of rows of a table carrying a given `eventId`. -/
def countByEventId (eid : α → String) (id : String) (l : List α) : ℕ :=
  (l.filter (fun x => eid x == id)).length

/-- Failure oracle under which only the events-hourly view refresh
throws. -/
def failEventsHourlyOnly : MatView → Bool :=
  fun v => v == MatView.eventsHourly

/-- A Facebook checkout event whose `purchaseAmount` is the string `"0"`
(present, parseable, not positive). -/
def fbZeroAmountEvent : FacebookEvent :=
  { eventId := "evt-fb-zero"
    timestamp := 1700000000000
    funnelStage := "bottom"
    eventType := "checkout.complete"
    user := { userId := "u1", name := "Ann", age := 30, gender := "female",
              country := "US", city := "NYC" }
    engagement := FacebookEngagement.checkout (some "0") "camp-1" "ad-1" }

/-- A Facebook top-funnel ad-view event (no revenue fields at all). -/
def fbViewEvent : FacebookEvent :=
  { eventId := "evt-fb-view"
    timestamp := 1700000000000
    funnelStage := "top"
    eventType := "ad.view"
    user := { userId := "u2", name := "Bob", age := 41, gender := "male",
              country := "DE", city := "Berlin" }
    engagement := FacebookEngagement.view }

/-- A TikTok purchase event with a positive amount. -/
def ttkPurchaseEvent : TiktokEvent :=
  { eventId := "evt-ttk-buy"
    timestamp := 1700000000000
    funnelStage := "bottom"
    eventType := "purchase"
    user := { username := "creator9", followers := 1500 }
    engagement := TiktokEngagement.purchase (some "49.99") "hat" }

/-- Two revenue-view rows whose exact `numeric` values are 0.1 and 0.2:
the smallest classical witness of binary64 accumulation drift. -/
def revenueDriftRows : List RevenueHourlyRow :=
  [{ hour := 0, source := "facebook", campaign_id := some "camp-1",
     total_revenue := mkRat 1 10, transaction_count := 1 },
   { hour := 0, source := "facebook", campaign_id := some "camp-1",
     total_revenue := mkRat 2 10, transaction_count := 1 }]

/-- 101 events-hourly rows (one per hour, distinct hours, one event each):
one more row than the fixed page size of `findEventsHourly`. -/
def manyEventsHourlyRows : List EventsHourlyRow :=
  (List.range 101).map (fun i =>
    { hour := (100 : ℤ) - i, source := "facebook", funnelStage := "top",
      eventType := "ad.view", event_count := 1 })

/-! ### Helper lemmas -/

theorem upsertRow_idem (eid : α → String) (row : α) (l : List α) :
    upsertRow eid row (upsertRow eid row l) = upsertRow eid row l := by
  simp only [upsertRow]
  cases h : l.any (fun x => eid x == eid row) <;>
    simp [h, List.any_append]

/-! ### C9 — follower-segment bucketing -/

/-- C9: the `CASE` of `report_demographics_tiktok_daily` buckets every
follower count `n` as: `n < 1000 → "0-1k"`, `1000 ≤ n < 10000 → "1k-10k"`,
`10000 ≤ n < 100000 → "10k-100k"`, `100000 ≤ n → "100k+"`; in particular
999, 1000, 99999 and 100000 land in the four claimed buckets. -/
theorem claim9_follower_segment_thresholds :
    (∀ n : ℤ,
      (n < 1000 → follower_segment n = "0-1k") ∧
      (1000 ≤ n → n < 10000 → follower_segment n = "1k-10k") ∧
      (10000 ≤ n → n < 100000 → follower_segment n = "10k-100k") ∧
      (100000 ≤ n → follower_segment n = "100k+")) ∧
    follower_segment 999 = "0-1k" ∧ follower_segment 1000 = "1k-10k" ∧
    follower_segment 99999 = "10k-100k" ∧
    follower_segment 100000 = "100k+" := by
  refine ⟨fun n => ⟨?_, ?_, ?_, ?_⟩, by decide, by decide, by decide, by decide⟩
  · intro h
    rw [follower_segment, if_pos h]
  · intro h1 h2
    rw [follower_segment, if_neg (by omega), if_pos h2]
  · intro h1 h2
    rw [follower_segment, if_neg (by omega), if_neg (by omega), if_pos h2]
  · intro h
    rw [follower_segment, if_neg (by omega), if_neg (by omega),
      if_neg (by omega)]

/-- Witness for C9 at the four boundary counts. -/
theorem claim9_follower_segment_thresholds_witness :
    follower_segment 999 = "0-1k" ∧ follower_segment 1000 = "1k-10k" ∧
    follower_segment 99999 = "10k-100k" ∧
    follower_segment 100000 = "100k+" :=
  ⟨(claim9_follower_segment_thresholds.1 999).1 (by decide),
   (claim9_follower_segment_thresholds.1 1000).2.1 (by decide) (by decide),
   (claim9_follower_segment_thresholds.1 99999).2.2.1 (by decide) (by decide),
   (claim9_follower_segment_thresholds.1 100000).2.2.2 (by decide)⟩

/-! ### C2 — refresh cycle behaviour when one view fails -/

/-- C2 counterexample: when the events-hourly refresh throws, the cycle
attempts no further view — `revenueHourly` (and the two demographics
views) are not refreshed in that cycle, contradicting the claim that the
remaining views are still attempted; the error also propagates
(`refreshAllViews` rethrows). -/
theorem claim2_refresh_abort_counterexample :
    (refreshAllViews failEventsHourlyOnly).1 = [MatView.eventsHourly] ∧
    MatView.revenueHourly ∉ (refreshAllViews failEventsHourlyOnly).1 ∧
    (refreshAllViews failEventsHourlyOnly).2 = false := by decide

/-- C2 amended: the cycle attempts the views in the fixed order only up to
and including the first failing one, then rethrows; it completes exactly
when no view fails, and each view is attempted at most once per cycle
(retry happens only on a later cycle). -/
theorem claim2_refresh_abort_amended (fails : MatView → Bool) :
    ((refreshAllViews fails).2 = true ↔
      (fails MatView.eventsHourly = false ∧
       fails MatView.revenueHourly = false ∧
       fails MatView.demographicsFbDaily = false ∧
       fails MatView.demographicsTiktokDaily = false)) ∧
    (fails MatView.eventsHourly = true →
      (refreshAllViews fails).1 = [MatView.eventsHourly]) ∧
    (fails MatView.eventsHourly = false → fails MatView.revenueHourly = true →
      (refreshAllViews fails).1 =
        [MatView.eventsHourly, MatView.revenueHourly]) ∧
    (fails MatView.eventsHourly = false → fails MatView.revenueHourly = false →
      fails MatView.demographicsFbDaily = true →
      (refreshAllViews fails).1 =
        [MatView.eventsHourly, MatView.revenueHourly,
         MatView.demographicsFbDaily]) ∧
    (fails MatView.eventsHourly = false → fails MatView.revenueHourly = false →
      fails MatView.demographicsFbDaily = false →
      (refreshAllViews fails).1 = refreshOrder) ∧
    (refreshAllViews fails).1.Nodup ∧
    manualRefreshAll fails = refreshAllViews fails := by
  cases h1 : fails MatView.eventsHourly <;>
    cases h2 : fails MatView.revenueHourly <;>
      cases h3 : fails MatView.demographicsFbDaily <;>
        cases h4 : fails MatView.demographicsTiktokDaily <;>
          simp [refreshAllViews, manualRefreshAll, refreshOrder, runRefreshSeq,
            h1, h2, h3, h4]

/-- Witness for C2's amended statement: under the oracle that fails only
the events-hourly view, the attempted list stops at that view. -/
theorem claim2_refresh_abort_amended_witness :
    (refreshAllViews failEventsHourlyOnly).1 = [MatView.eventsHourly] :=
  (claim2_refresh_abort_amended failEventsHourlyOnly).2.1 (by decide)

/-! ### C3 — unprocessable messages -/

/-- C3 counterexample: a message whose payload cannot be decoded is NOT
acknowledged (the decode error is caught in the subscribe loop before the
handler runs, and only the handler acknowledges), so it will be redelivered
by the transport; the claim that it is acknowledged immediately fails.  The
zero-rows part does hold: the store is unchanged. -/
theorem claim3_decode_failure_counterexample :
    (consumeMessage noFailure none emptyStore).2 ≠ true ∧
    (consumeMessage noFailure none emptyStore).1 = emptyStore := by decide

/-- C3 amended: an undecodable payload is dropped without acknowledgment
(leaving redelivery to the transport, bounded by its max-deliver count) and
writes nothing; a decodable payload whose source discriminator is neither
`"facebook"` nor `"tiktok"` is acknowledged immediately and writes
nothing. -/
theorem claim3_unprocessable_message_amended (fails : WriteTarget → Bool)
    (s : Store) (src : String) :
    consumeMessage fails none s = (s, false) ∧
    consumeMessage fails (some (DecodedPayload.other src)) s = (s, true) :=
  ⟨rfl, rfl⟩

/-! ### C7 — no acknowledgment on write failure, loop survives -/

theorem processFacebookEvent_ack (fails : WriteTarget → Bool)
    (e : FacebookEvent) (s : Store) :
    (processFacebookEvent fails e s).2 = !(fbWriteFails fails e) := by
  rcases e with ⟨id, ts, fs, et, u, eng⟩
  cases eng with
  | view =>
    cases h1 : fails WriteTarget.statistic <;>
      cases h2 : fails WriteTarget.demographic <;>
        cases h3 : et == "checkout.complete" <;>
          simp [processFacebookEvent, fbWriteFails, fbRevenueQualifies,
            h1, h2, h3]
  | checkout pa cid aid =>
    cases pa with
    | none =>
      cases h1 : fails WriteTarget.statistic <;>
        cases h2 : fails WriteTarget.demographic <;>
          cases h3 : et == "checkout.complete" <;>
            simp [processFacebookEvent, fbWriteFails, fbRevenueQualifies,
              jsTruthyStr, h1, h2, h3]
    | some amount =>
      cases h1 : fails WriteTarget.statistic <;>
        cases h2 : fails WriteTarget.demographic <;>
          cases h3 : et == "checkout.complete" <;>
            cases h4 : amount == "" <;>
              cases h5 : fails WriteTarget.revenue <;>
                simp [processFacebookEvent, fbWriteFails, fbRevenueQualifies,
                  jsTruthyStr, h1, h2, h3, h4, h5]

theorem processTiktokEvent_ack (fails : WriteTarget → Bool)
    (e : TiktokEvent) (s : Store) :
    (processTiktokEvent fails e s).2 = !(ttkWriteFails fails e) := by
  rcases e with ⟨id, ts, fs, et, u, eng⟩
  cases eng with
  | video w p =>
    cases h1 : fails WriteTarget.statistic <;>
      cases h2 : fails WriteTarget.demographic <;>
        cases h3 : et == "purchase" <;>
          simp [processTiktokEvent, ttkWriteFails, ttkRevenueQualifies,
            h1, h2, h3]
  | purchase pa item =>
    cases pa with
    | none =>
      cases h1 : fails WriteTarget.statistic <;>
        cases h2 : fails WriteTarget.demographic <;>
          cases h3 : et == "purchase" <;>
            simp [processTiktokEvent, ttkWriteFails, ttkRevenueQualifies,
              jsTruthyStr, h1, h2, h3]
    | some amount =>
      cases h1 : fails WriteTarget.statistic <;>
        cases h2 : fails WriteTarget.demographic <;>
          cases h3 : et == "purchase" <;>
            cases h4 : amount == "" <;>
              cases h5 : fails WriteTarget.revenue <;>
                simp [processTiktokEvent, ttkWriteFails, ttkRevenueQualifies,
                  jsTruthyStr, h1, h2, h3, h4, h5]

theorem consumeLoop_length (fails : WriteTarget → Bool)
    (msgs : List (Option DecodedPayload)) (s : Store) :
    (consumeLoop fails msgs s).2.length = msgs.length := by
  induction msgs generalizing s with
  | nil => simp [consumeLoop]
  | cons m rest ih => simp [consumeLoop, ih]

/-- C7: a message is acknowledged exactly when no Event Store write it
attempted failed — so on any write failure the message is not acknowledged
and is left to transport redelivery — and the consume loop still produces a
processing outcome for every message of the sequence (a per-message failure
never stops the loop). -/
theorem claim7_no_ack_on_write_failure (fails : WriteTarget → Bool)
    (fe : FacebookEvent) (te : TiktokEvent) (s : Store)
    (msgs : List (Option DecodedPayload)) :
    (processFacebookEvent fails fe s).2 = !(fbWriteFails fails fe) ∧
    (processTiktokEvent fails te s).2 = !(ttkWriteFails fails te) ∧
    (consumeLoop fails msgs s).2.length = msgs.length :=
  ⟨processFacebookEvent_ack fails fe s, processTiktokEvent_ack fails te s,
   consumeLoop_length fails msgs s⟩

/-! ### C8 — source partitioning of row fields -/

/-- C8: rows written for a TikTok event leave every Facebook-only column
null (userId, userName, userAge/age, userGender/gender, country, city on
the statistic/demographic rows; campaignId, adId, userId on the revenue
row), and rows written for a Facebook event leave every TikTok-only column
null (username, followers, watchTime, percentageWatched, purchasedItem). -/
theorem claim8_source_partitioning (fe : FacebookEvent) (te : TiktokEvent) :
    ((processTiktokEvent noFailure te emptyStore).1.eventStatistics.all
        (fun r => r.userId.isNone && r.userName.isNone && r.userAge.isNone &&
          r.userGender.isNone && r.country.isNone && r.city.isNone) = true ∧
      (processTiktokEvent noFailure te emptyStore).1.demographicRecords.all
        (fun r => r.userId.isNone && r.userName.isNone && r.age.isNone &&
          r.gender.isNone && r.country.isNone && r.city.isNone) = true ∧
      (processTiktokEvent noFailure te emptyStore).1.revenueRecords.all
        (fun r => r.campaignId.isNone && r.adId.isNone && r.userId.isNone) =
        true) ∧
    ((processFacebookEvent noFailure fe emptyStore).1.eventStatistics.all
        (fun r => r.username.isNone && r.followers.isNone &&
          r.watchTime.isNone && r.percentageWatched.isNone) = true ∧
      (processFacebookEvent noFailure fe emptyStore).1.demographicRecords.all
        (fun r => r.username.isNone && r.followers.isNone) = true ∧
      (processFacebookEvent noFailure fe emptyStore).1.revenueRecords.all
        (fun r => r.username.isNone && r.purchasedItem.isNone) = true) := by
  constructor
  · rcases te with ⟨id, ts, fs, et, u, eng⟩
    cases eng with
    | video w p =>
      cases h3 : et == "purchase" <;>
        simp [processTiktokEvent, noFailure, emptyStore, upsertRow,
          ttkStatisticRow, ttkDemographicRow, h3]
    | purchase pa item =>
      cases pa with
      | none =>
        cases h3 : et == "purchase" <;>
          simp [processTiktokEvent, noFailure, emptyStore, upsertRow,
            ttkStatisticRow, ttkDemographicRow, h3]
      | some amount =>
        cases h3 : et == "purchase" <;>
          cases h4 : amount == "" <;>
            simp [processTiktokEvent, noFailure, emptyStore, upsertRow,
              ttkStatisticRow, ttkDemographicRow, ttkRevenueRow, h3, h4]
  · rcases fe with ⟨id, ts, fs, et, u, eng⟩
    cases eng with
    | view =>
      cases h3 : et == "checkout.complete" <;>
        simp [processFacebookEvent, noFailure, emptyStore, upsertRow,
          fbStatisticRow, fbDemographicRow, h3]
    | checkout pa cid aid =>
      cases pa with
      | none =>
        cases h3 : et == "checkout.complete" <;>
          simp [processFacebookEvent, noFailure, emptyStore, upsertRow,
            fbStatisticRow, fbDemographicRow, h3]
      | some amount =>
        cases h3 : et == "checkout.complete" <;>
          cases h4 : amount == "" <;>
            simp [processFacebookEvent, noFailure, emptyStore, upsertRow,
              fbStatisticRow, fbDemographicRow, fbRevenueRow, h3, h4]

/-! ### C1 — when a RevenueRecord is created -/

/-- C1 counterexample: the Facebook checkout event whose `purchaseAmount`
is the string `"0"` — present and parseable but not positive — DOES
produce a RevenueRecord (with stored amount 0), because the guard
`if (purchaseAmount)` tests JavaScript string truthiness and `"0"` is a
non-empty string; the claim says this event produces no RevenueRecord. -/
theorem claim1_zero_amount_counterexample :
    (processFacebookEvent noFailure fbZeroAmountEvent emptyStore).1.revenueRecords.length
      = 1 ∧
    (processFacebookEvent noFailure fbZeroAmountEvent emptyStore).1.revenueRecords.map
      RevenueRecordRow.purchaseAmount = [some 0] ∧
    jsParseFloat "0" = some 0 := by decide

/-- C1 amended: for an event ingested for the first time, exactly one
EventStatistic and one DemographicRecord row are always created and the
message is processed without failure; a RevenueRecord is created iff the
event type is the source's qualifying type (`checkout.complete` /
`purchase`) AND a `purchaseAmount` field is present with a truthy (non-null,
non-empty) string value.  Parseability and positivity are not required:
`"0"` and unparseable strings still create the record. -/
theorem claim1_revenue_record_amended (fe : FacebookEvent)
    (te : TiktokEvent) :
    ((processFacebookEvent noFailure fe emptyStore).2 = true ∧
      (processFacebookEvent noFailure fe emptyStore).1.eventStatistics.length = 1 ∧
      (processFacebookEvent noFailure fe emptyStore).1.demographicRecords.length = 1 ∧
      (processFacebookEvent noFailure fe emptyStore).1.revenueRecords.length =
        (if fbRevenueQualifies fe then 1 else 0)) ∧
    ((processTiktokEvent noFailure te emptyStore).2 = true ∧
      (processTiktokEvent noFailure te emptyStore).1.eventStatistics.length = 1 ∧
      (processTiktokEvent noFailure te emptyStore).1.demographicRecords.length = 1 ∧
      (processTiktokEvent noFailure te emptyStore).1.revenueRecords.length =
        (if ttkRevenueQualifies te then 1 else 0)) := by
  constructor
  · rcases fe with ⟨id, ts, fs, et, u, eng⟩
    cases eng with
    | view =>
      cases h3 : et == "checkout.complete" <;>
        simp [processFacebookEvent, noFailure, emptyStore, upsertRow,
          fbRevenueQualifies, h3]
    | checkout pa cid aid =>
      cases pa with
      | none =>
        cases h3 : et == "checkout.complete" <;>
          simp [processFacebookEvent, noFailure, emptyStore, upsertRow,
            fbRevenueQualifies, jsTruthyStr, h3]
      | some amount =>
        cases h3 : et == "checkout.complete" <;>
          cases h4 : amount == "" <;>
            simp [processFacebookEvent, noFailure, emptyStore, upsertRow,
              fbRevenueQualifies, jsTruthyStr, h3, h4]
  · rcases te with ⟨id, ts, fs, et, u, eng⟩
    cases eng with
    | video w p =>
      cases h3 : et == "purchase" <;>
        simp [processTiktokEvent, noFailure, emptyStore, upsertRow,
          ttkRevenueQualifies, h3]
    | purchase pa item =>
      cases pa with
      | none =>
        cases h3 : et == "purchase" <;>
          simp [processTiktokEvent, noFailure, emptyStore, upsertRow,
            ttkRevenueQualifies, jsTruthyStr, h3]
      | some amount =>
        cases h3 : et == "purchase" <;>
          cases h4 : amount == "" <;>
            simp [processTiktokEvent, noFailure, emptyStore, upsertRow,
              ttkRevenueQualifies, jsTruthyStr, h3, h4]

/-! ### C4 — idempotency on eventId -/

theorem processFacebookEvent_noFailure_idem (e : FacebookEvent) (s : Store) :
    processFacebookEvent noFailure e (processFacebookEvent noFailure e s).1 =
      ((processFacebookEvent noFailure e s).1, true) := by
  rcases e with ⟨id, ts, fs, et, u, eng⟩
  cases eng with
  | view =>
    cases h3 : et == "checkout.complete" <;>
      simp [processFacebookEvent, noFailure, h3, upsertRow_idem]
  | checkout pa cid aid =>
    cases pa with
    | none =>
      cases h3 : et == "checkout.complete" <;>
        simp [processFacebookEvent, noFailure, h3, upsertRow_idem]
    | some amount =>
      cases h3 : et == "checkout.complete" <;>
        cases h4 : amount == "" <;>
          simp [processFacebookEvent, noFailure, h3, h4, upsertRow_idem]

theorem processTiktokEvent_noFailure_idem (e : TiktokEvent) (s : Store) :
    processTiktokEvent noFailure e (processTiktokEvent noFailure e s).1 =
      ((processTiktokEvent noFailure e s).1, true) := by
  rcases e with ⟨id, ts, fs, et, u, eng⟩
  cases eng with
  | video w p =>
    cases h3 : et == "purchase" <;>
      simp [processTiktokEvent, noFailure, h3, upsertRow_idem]
  | purchase pa item =>
    cases pa with
    | none =>
      cases h3 : et == "purchase" <;>
        simp [processTiktokEvent, noFailure, h3, upsertRow_idem]
    | some amount =>
      cases h3 : et == "purchase" <;>
        cases h4 : amount == "" <;>
          simp [processTiktokEvent, noFailure, h3, h4, upsertRow_idem]

theorem processFacebookEvent_fresh_counts (e : FacebookEvent) :
    countByEventId EventStatisticRow.eventId e.eventId
      (processFacebookEvent noFailure e emptyStore).1.eventStatistics = 1 ∧
    countByEventId DemographicRecordRow.eventId e.eventId
      (processFacebookEvent noFailure e emptyStore).1.demographicRecords = 1 ∧
    countByEventId RevenueRecordRow.eventId e.eventId
      (processFacebookEvent noFailure e emptyStore).1.revenueRecords ≤ 1 := by
  rcases e with ⟨id, ts, fs, et, u, eng⟩
  cases eng with
  | view =>
    cases h3 : et == "checkout.complete" <;>
      simp [processFacebookEvent, noFailure, emptyStore, upsertRow,
        countByEventId, fbStatisticRow, fbDemographicRow, h3]
  | checkout pa cid aid =>
    cases pa with
    | none =>
      cases h3 : et == "checkout.complete" <;>
        simp [processFacebookEvent, noFailure, emptyStore, upsertRow,
          countByEventId, fbStatisticRow, fbDemographicRow, h3]
    | some amount =>
      cases h3 : et == "checkout.complete" <;>
        cases h4 : amount == "" <;>
          simp [processFacebookEvent, noFailure, emptyStore, upsertRow,
            countByEventId, fbStatisticRow, fbDemographicRow, fbRevenueRow,
            h3, h4]

theorem processTiktokEvent_fresh_counts (e : TiktokEvent) :
    countByEventId EventStatisticRow.eventId e.eventId
      (processTiktokEvent noFailure e emptyStore).1.eventStatistics = 1 ∧
    countByEventId DemographicRecordRow.eventId e.eventId
      (processTiktokEvent noFailure e emptyStore).1.demographicRecords = 1 ∧
    countByEventId RevenueRecordRow.eventId e.eventId
      (processTiktokEvent noFailure e emptyStore).1.revenueRecords ≤ 1 := by
  rcases e with ⟨id, ts, fs, et, u, eng⟩
  cases eng with
  | video w p =>
    cases h3 : et == "purchase" <;>
      simp [processTiktokEvent, noFailure, emptyStore, upsertRow,
        countByEventId, ttkStatisticRow, ttkDemographicRow, h3]
  | purchase pa item =>
    cases pa with
    | none =>
      cases h3 : et == "purchase" <;>
        simp [processTiktokEvent, noFailure, emptyStore, upsertRow,
          countByEventId, ttkStatisticRow, ttkDemographicRow, h3]
    | some amount =>
      cases h3 : et == "purchase" <;>
        cases h4 : amount == "" <;>
          simp [processTiktokEvent, noFailure, emptyStore, upsertRow,
            countByEventId, ttkStatisticRow, ttkDemographicRow, ttkRevenueRow,
            h3, h4]

/-- C4: redelivering the same event payload is a no-op — reprocessing
leaves every table unchanged (the existing rows win over the redelivered
creates), the second delivery completes without error, and after two
deliveries of a fresh event there is exactly one EventStatistic row, one
DemographicRecord row and at most one RevenueRecord row for its eventId. -/
theorem claim4_idempotent_on_eventId (fe : FacebookEvent) (te : TiktokEvent)
    (s : Store) :
    ((processFacebookEvent noFailure fe
        (processFacebookEvent noFailure fe s).1).1 =
      (processFacebookEvent noFailure fe s).1 ∧
     (processFacebookEvent noFailure fe
        (processFacebookEvent noFailure fe s).1).2 = true ∧
     (processTiktokEvent noFailure te
        (processTiktokEvent noFailure te s).1).1 =
      (processTiktokEvent noFailure te s).1 ∧
     (processTiktokEvent noFailure te
        (processTiktokEvent noFailure te s).1).2 = true) ∧
    (countByEventId EventStatisticRow.eventId fe.eventId
        (processFacebookEvent noFailure fe
          (processFacebookEvent noFailure fe emptyStore).1).1.eventStatistics = 1 ∧
     countByEventId DemographicRecordRow.eventId fe.eventId
        (processFacebookEvent noFailure fe
          (processFacebookEvent noFailure fe emptyStore).1).1.demographicRecords = 1 ∧
     countByEventId RevenueRecordRow.eventId fe.eventId
        (processFacebookEvent noFailure fe
          (processFacebookEvent noFailure fe emptyStore).1).1.revenueRecords ≤ 1) ∧
    (countByEventId EventStatisticRow.eventId te.eventId
        (processTiktokEvent noFailure te
          (processTiktokEvent noFailure te emptyStore).1).1.eventStatistics = 1 ∧
     countByEventId DemographicRecordRow.eventId te.eventId
        (processTiktokEvent noFailure te
          (processTiktokEvent noFailure te emptyStore).1).1.demographicRecords = 1 ∧
     countByEventId RevenueRecordRow.eventId te.eventId
        (processTiktokEvent noFailure te
          (processTiktokEvent noFailure te emptyStore).1).1.revenueRecords ≤ 1) := by
  refine ⟨⟨?_, ?_, ?_, ?_⟩, ?_, ?_⟩
  · rw [processFacebookEvent_noFailure_idem fe s]
  · rw [processFacebookEvent_noFailure_idem fe s]
  · rw [processTiktokEvent_noFailure_idem te s]
  · rw [processTiktokEvent_noFailure_idem te s]
  · rw [processFacebookEvent_noFailure_idem fe emptyStore]
    exact processFacebookEvent_fresh_counts fe
  · rw [processTiktokEvent_noFailure_idem te emptyStore]
    exact processTiktokEvent_fresh_counts te

/-! ### C5 — revenue sums and binary64 drift -/

theorem specExactRevenueSum_driftRows :
    specExactRevenueSum revenueDriftRows = mkRat 3 10 := by
  show (0 + mkRat 1 10 + mkRat 2 10 : ℚ) = mkRat 3 10
  rw [Rat.mkRat_eq_divInt, Rat.mkRat_eq_divInt, Rat.mkRat_eq_divInt,
    Rat.divInt_eq_div, Rat.divInt_eq_div, Rat.divInt_eq_div]
  norm_num

set_option maxRecDepth 100000 in
/-- C5 counterexample: on the two matching revenue rows with exact decimal
values 0.1 and 0.2, `getRevenueStatistics` returns a `totalRevenue` that
differs from the exact decimal sum 0.3 — each row value is converted by
`Number(...)` to binary64 and accumulated with binary64 `+`, producing
0.30000000000000004 (= 5404319552844596 / 2^54). -/
theorem claim5_revenue_float_drift_counterexample :
    revenueTotalRevenue revenueDriftRows ≠
      specExactRevenueSum revenueDriftRows := by
  have hfloat : revenueTotalRevenue revenueDriftRows =
      mkRat 5404319552844596 (2 ^ 54) := by decide
  rw [hfloat, specExactRevenueSum_driftRows]
  decide

set_option maxRecDepth 100000 in
/-- C5 amended: `totalRevenue` and the per-source revenue breakdown are
computed in IEEE-754 binary64 (JavaScript `Number`) arithmetic — each
`numeric` row value is converted to the nearest binary64 and accumulated
with rounding after every addition — so they can drift from the exact
decimal sum: for rows 0.1 and 0.2 both report 5404319552844596 / 2^54
(0.30000000000000004), not 0.3, while the transaction count stays exact. -/
theorem claim5_revenue_float_amended :
    revenueTotalRevenue revenueDriftRows =
      mkRat 5404319552844596 (2 ^ 54) ∧
    revenueBySource revenueDriftRows =
      [("facebook", (mkRat 5404319552844596 (2 ^ 54), 2))] ∧
    revenueTotalTransactions revenueDriftRows = 2 ∧
    specExactRevenueSum revenueDriftRows = mkRat 3 10 :=
  ⟨by decide, by decide, by decide, specExactRevenueSum_driftRows⟩

/-! ### C10 and C6 — events response sums and the page bound -/

theorem foldl_add_event_count (rows : List EventsHourlyRow) (a : ℤ) :
    rows.foldl (fun s e => s + e.event_count) a =
      a + (rows.map EventsHourlyRow.event_count).sum := by
  induction rows generalizing a with
  | nil => simp
  | cons x xs ih => simp [List.foldl, ih, add_assoc]

theorem eventsTotalCount_eq_sum (rows : List EventsHourlyRow) :
    eventsTotalCount rows = (rows.map EventsHourlyRow.event_count).sum := by
  simpa [eventsTotalCount] using foldl_add_event_count rows 0

theorem sum_snd_insertAddCount (m : List (String × ℤ)) (k : String) (v : ℤ) :
    ((insertAddCount m k v).map Prod.snd).sum = (m.map Prod.snd).sum + v := by
  induction m with
  | nil => simp [insertAddCount]
  | cons kv rest ih =>
    rcases kv with ⟨k0, v0⟩
    cases h : k0 == k
    · simp only [insertAddCount, h]
      simp [ih]
      ring
    · simp only [insertAddCount, h]
      simp
      ring

theorem sum_snd_eventsAggMap_fold (rows : List EventsHourlyRow)
    (m : List (String × ℤ)) :
    ((rows.foldl
        (fun m e => insertAddCount m (eventsAggKey e) e.event_count) m).map
      Prod.snd).sum =
      (m.map Prod.snd).sum + (rows.map EventsHourlyRow.event_count).sum := by
  induction rows generalizing m with
  | nil => simp
  | cons x xs ih => simp [List.foldl, ih, sum_snd_insertAddCount, add_assoc]

theorem events_response_sums (rows : List EventsHourlyRow) :
    eventsTotalCount rows =
      ((eventsHourlyData rows).map EventsHourlyEntry.count).sum ∧
    eventsTotalCount rows =
      ((eventsAggregated rows).map EventsAggregatedEntry.count).sum := by
  constructor
  · rw [eventsTotalCount_eq_sum]
    simp only [eventsHourlyData, List.map_map]
    rfl
  · rw [eventsTotalCount_eq_sum]
    have h := sum_snd_eventsAggMap_fold rows []
    simp only [List.map_nil, List.sum_nil, zero_add] at h
    simp only [eventsAggregated, eventsAggMap, List.map_map]
    exact h.symm

/-- C10: the events response is internally consistent — for every row set
the service aggregates (and in particular for the page fetched by any
query), `total` equals the sum of the `count` fields over `hourlyData` and
also equals the sum of the `count` fields over `aggregated`: all three
response fields are computed from the same row set. -/
theorem claim10_events_internal_consistency (rows : List EventsHourlyRow)
    (table : List EventsHourlyRow) (f : EventsHourlyFilters) :
    (eventsTotalCount rows =
        ((eventsHourlyData rows).map EventsHourlyEntry.count).sum ∧
      eventsTotalCount rows =
        ((eventsAggregated rows).map EventsAggregatedEntry.count).sum) ∧
    ((getEventStatistics table f).total =
        ((getEventStatistics table f).hourlyData.map
          EventsHourlyEntry.count).sum ∧
      (getEventStatistics table f).total =
        ((getEventStatistics table f).aggregated.map
          EventsAggregatedEntry.count).sum) :=
  ⟨events_response_sums rows,
   events_response_sums (findEventsHourly table f defaultQueryLimit)⟩

set_option maxRecDepth 100000 in
/-- C6 counterexample: with 101 matching hourly rows of one event each and
no filters, the returned `total` is 100 — the sum over the fetched
`LIMIT 100` page — while the grand total over all matching rows is 101;
the claim that `total` is the grand total even beyond the page size
fails. -/
theorem claim6_total_not_grand_total_counterexample :
    (getEventStatistics manyEventsHourlyRows noEventsFilters).total = 100 ∧
    eventsTotalCount (manyEventsHourlyRows.filter
      (matchesEventsFilters noEventsFilters)) = 101 ∧
    (getEventStatistics manyEventsHourlyRows noEventsFilters).total ≠
      eventsTotalCount (manyEventsHourlyRows.filter
        (matchesEventsFilters noEventsFilters)) := by decide

/-- C6 amended: `total` and `aggregated` are computed over the fetched page
only — the at most 100 most recent (hour-descending) matching hourly
rows — so `total` equals the page sum; it equals the grand total precisely
in the regime where no more than 100 rows match.  `hourlyData` is bounded
by the page size and ordered most recent first. -/
theorem claim6_events_page_semantics_amended (table : List EventsHourlyRow)
    (f : EventsHourlyFilters) :
    (getEventStatistics table f).total =
      eventsTotalCount (findEventsHourly table f defaultQueryLimit) ∧
    (getEventStatistics table f).hourlyData.length ≤ defaultQueryLimit ∧
    List.Sorted (fun a b : ℤ => b ≤ a)
      ((getEventStatistics table f).hourlyData.map EventsHourlyEntry.hour) ∧
    ((table.filter (matchesEventsFilters f)).length ≤ defaultQueryLimit →
      (getEventStatistics table f).total =
        eventsTotalCount (table.filter (matchesEventsFilters f))) := by
  refine ⟨rfl, ?_, ?_, ?_⟩
  · simp only [getEventStatistics, eventsHourlyData, findEventsHourly,
      List.length_map]
    exact List.length_take_le _ _
  · have hs :=
      List.sorted_insertionSort hourGe (table.filter (matchesEventsFilters f))
    have ht : List.Sorted hourGe
        (List.take defaultQueryLimit
          (List.insertionSort hourGe (table.filter (matchesEventsFilters f)))) :=
      List.Pairwise.sublist (List.take_sublist _ _) hs
    have hm : List.Pairwise (fun a b : ℤ => b ≤ a)
        ((List.take defaultQueryLimit
          (List.insertionSort hourGe
            (table.filter (matchesEventsFilters f)))).map
          (fun e : EventsHourlyRow => e.hour)) :=
      List.Pairwise.map (fun e : EventsHourlyRow => e.hour)
        (fun a b h => h) ht
    simpa [getEventStatistics, eventsHourlyData, findEventsHourly,
      List.map_map, Function.comp, List.Sorted] using hm
  · intro h
    have hperm :=
      List.perm_insertionSort hourGe (table.filter (matchesEventsFilters f))
    have hlen : (List.insertionSort hourGe
        (table.filter (matchesEventsFilters f))).length ≤ defaultQueryLimit := by
      rw [hperm.length_eq]
      exact h
    have htake := List.take_of_length_le hlen
    show eventsTotalCount (findEventsHourly table f defaultQueryLimit) =
      eventsTotalCount (table.filter (matchesEventsFilters f))
    rw [eventsTotalCount_eq_sum, eventsTotalCount_eq_sum, findEventsHourly,
      htake]
    exact (hperm.map EventsHourlyRow.event_count).sum_eq

/-- Witness for C6's amended statement: on a single-row table with no
filters, fewer rows match than the page size, and `total` equals the grand
total of the matching rows. -/
theorem claim6_events_page_semantics_amended_witness :
    (getEventStatistics
        [{ hour := 0, source := "facebook", funnelStage := "top",
           eventType := "ad.view", event_count := 3 }] noEventsFilters).total =
      eventsTotalCount
        ([{ hour := 0, source := "facebook", funnelStage := "top",
            eventType := "ad.view", event_count := 3 }].filter
          (matchesEventsFilters noEventsFilters)) :=
  (claim6_events_page_semantics_amended
    [{ hour := 0, source := "facebook", funnelStage := "top",
       eventType := "ad.view", event_count := 3 }] noEventsFilters).2.2.2
    (by decide)

end Reporter
